import Mathlib

/-!
Shallow embedding of the task-management backend (kanban dashboard server).

The routes actually mounted by `server/src/server.ts` are the inline handlers
of `server/src/routes/tasks.ts` and `server/src/routes/auth.ts`; the file
`server/src/controllers/taskController.ts` is present in the repository but
imported by nothing, so the router handlers are the authority here.

Identifiers (Mongo ObjectIds and user ids) are opaque strings compared for
equality, matching the `toString()` comparisons in the handlers. Machine
timestamps are `Nat`. Request bodies are records of `Option` fields: `some`
means the JSON key is present (enum values are non-empty strings, hence
truthy in the JS checks), `none` means absent.
-/

namespace Kanban

abbrev UserId := String

inductive Role
  | admin
  | user
deriving DecidableEq, Repr

inductive Status
  | todo
  | inProgress
  | review
  | done
deriving DecidableEq, Repr

inductive Priority
  | low
  | medium
  | high
deriving DecidableEq, Repr

/-- User record, from `server/src/models/User.ts` (fields relevant to the
task routes: `_id`, `name`, `email`, `role`, `isActive`). -/
structure UserRec where
  id : UserId
  name : String
  email : String
  role : Role
  isActive : Bool
deriving DecidableEq, Repr

/-- Task record, from `server/src/models/Task.ts` (`title`, `description`,
`status` defaulting to todo, `priority` defaulting to medium, `assignedTo`,
`assignedBy`, optional `dueDate`, timestamped `createdAt`). The optional
`projectId` and the `updatedAt` timestamp are never read by the task routes
and are omitted. -/
structure Task where
  id : String
  title : String
  description : String
  status : Status
  priority : Priority
  assignedTo : List UserId
  assignedBy : UserId
  dueDate : Option Nat
  createdAt : Nat
deriving DecidableEq, Repr

/-- HTTP response statuses used by the handlers. -/
inductive HStatus
  | ok200
  | created201
  | badRequest400
  | unauthorized401
  | forbidden403
  | notFound404
  | serverError500
deriving DecidableEq, Repr

/-- Socket event names pushed by the task routes. -/
inductive EvName
  | taskCreated
  | taskAssigned
  | taskUpdated
  | taskDeleted
deriving DecidableEq, Repr

/-- One `io.to(target).emit(name, payload)` call. The payload is the same
populated task (or taskId marker) for every emission of one handler run, so
only the target room and the event name are tracked. -/
structure Emission where
  target : UserId
  name : EvName
deriving DecidableEq, Repr

/-- Result of a mutating handler: HTTP status, the task store afterwards,
and the socket emissions in program order. -/
structure MutResult where
  status : HStatus
  db : List Task
  events : List Emission
deriving DecidableEq, Repr

/-- `mongoose.Types.ObjectId.isValid` on a string: 24 hexadecimal
characters. -/
def isHexChar (c : Char) : Bool :=
  c.isDigit || (Char.ofNat 97 ≤ c && c ≤ Char.ofNat 102) ||
    (Char.ofNat 65 ≤ c && c ≤ Char.ofNat 70)

def isValidObjectId (s : String) : Bool :=
  s.data.length == 24 && s.data.all isHexChar

/-- `User.find ... _id $in ids` hit count: number of stored users whose id
occurs in `ids` (the handlers compare this count against `ids.length`; no
`isActive` filter appears in the mounted routes). -/
def validUsersCount (users : List UserRec) (ids : List UserId) : Nat :=
  (users.filter (fun u => ids.contains u.id)).length

/-- Modelled from the spec: `server/src/middleware/authorize.ts` is imported
by the routes (`authorize('admin')` on POST and DELETE of /api/tasks) but the
file itself is not among the sources. Per the spec, POST /tasks is
admin-only and an authenticated user with insufficient permission receives
403, so the middleware admits exactly the users holding the required role. -/
def authorize (required : Role) (user : UserRec) : Bool :=
  user.role == required

/-- PUT /api/tasks/:id request body (`routes/tasks.ts`): any subset of
title/description/status/priority/assignedTo/dueDate. -/
structure UpdateBody where
  title : Option String
  description : Option String
  status : Option Status
  priority : Option Priority
  assignedTo : Option (List UserId)
  dueDate : Option Nat
deriving DecidableEq, Repr

/-- `Object.keys(req.body).length` for an update body carrying only the six
recognised keys. -/
def bodyKeys (b : UpdateBody) : Nat :=
  (if b.title.isSome then 1 else 0) +
  (if b.description.isSome then 1 else 0) +
  (if b.status.isSome then 1 else 0) +
  (if b.priority.isSome then 1 else 0) +
  (if b.assignedTo.isSome then 1 else 0) +
  (if b.dueDate.isSome then 1 else 0)

/-- The write-permission decision of PUT /api/tasks/:id (`routes/tasks.ts`
lines 443-454): a non-admin non-creator is admitted only for a body whose
sole key is a truthy `status`, and then only if currently assigned. -/
def canWrite (user : UserRec) (task : Task) (b : UpdateBody) : Bool :=
  if user.role != Role.admin && task.assignedBy != user.id then
    if b.status.isSome && bodyKeys b == 1 then
      task.assignedTo.contains user.id
    else
      false
  else
    true

/-- The read-permission disjunction of GET /api/tasks/:id: admin, assignee,
or creator. -/
def canRead (user : UserRec) (task : Task) : Bool :=
  user.role == Role.admin || task.assignedTo.contains user.id ||
    task.assignedBy == user.id

/-- Result of GET /api/tasks/:id. -/
inductive GetResult
  | ok (task : Task)
  | badRequest
  | notFound
  | forbidden
deriving DecidableEq, Repr

/-- GET /api/tasks/:id (`routes/tasks.ts` lines 315-359): 400 on a malformed
ObjectId, 404 when absent, then admin / assignee / creator may read,
everyone else gets 403. The requester has already passed `protect`. -/
def getTask (db : List Task) (user : UserRec) (taskId : String) : GetResult :=
  if !isValidObjectId taskId then
    GetResult.badRequest
  else
    match db.find? (fun t => t.id == taskId) with
    | none => GetResult.notFound
    | some task =>
      if user.role == Role.admin then
        GetResult.ok task
      else if task.assignedTo.contains user.id then
        GetResult.ok task
      else if task.assignedBy == user.id then
        GetResult.ok task
      else
        GetResult.forbidden

/-- Descending creation-time order used by `.sort(createdAt: -1)`. -/
def createdGe (a b : Task) : Prop :=
  b.createdAt ≤ a.createdAt

instance : DecidableRel createdGe :=
  fun a b => Nat.decLe b.createdAt a.createdAt

instance : IsTotal Task createdGe :=
  ⟨fun a b => Nat.le_total b.createdAt a.createdAt⟩

instance : IsTrans Task createdGe :=
  ⟨fun _ _ _ h1 h2 => Nat.le_trans h2 h1⟩

/-- GET /api/tasks (`routes/tasks.ts` lines 285-312): admin lists every
task; a non-admin lists the tasks found by `Task.find(assignedTo: user.id)`,
i.e. membership in the assignee set only. Both lists come back sorted most
recently created first. -/
def listFor (db : List Task) (user : UserRec) : List Task :=
  if user.role == Role.admin then
    List.insertionSort createdGe db
  else
    List.insertionSort createdGe (db.filter (fun t => t.assignedTo.contains user.id))

/-- POST /api/tasks request body. -/
structure CreateBody where
  title : Option String
  description : Option String
  priority : Option Priority
  assignedTo : Option (List UserId)
  dueDate : Option Nat
  status : Option Status
deriving DecidableEq, Repr

/-- POST /api/tasks (`routes/tasks.ts` lines 362-411), behind `protect` and
`authorize(admin)`. The handler rejects a missing or empty assignedTo array
(400), rejects when `User.find(_id $in assignedTo)` returns fewer documents
than ids (400, no `isActive` filter), then builds the task with
`status: status or todo` and the schema default `medium` for priority and
saves it. A save with a missing or empty required `title`/`description`
throws the mongoose validation error, caught as 500. On success the new
task is persisted, every assignee gets `taskAssigned` and the creator gets
`taskCreated`, status 201. `newId` is the ObjectId minted for the document
and `now` its creation timestamp. -/
def createTask (users : List UserRec) (db : List Task) (user : UserRec)
    (b : CreateBody) (newId : String) (now : Nat) : MutResult :=
  if !(authorize Role.admin user) then
    ⟨HStatus.forbidden403, db, []⟩
  else
    match b.assignedTo with
    | none => ⟨HStatus.badRequest400, db, []⟩
    | some ids =>
      if ids.isEmpty then
        ⟨HStatus.badRequest400, db, []⟩
      else if validUsersCount users ids != ids.length then
        ⟨HStatus.badRequest400, db, []⟩
      else
        match b.title, b.description with
        | some t, some d =>
          if t == "" || d == "" then
            ⟨HStatus.serverError500, db, []⟩
          else
            let task : Task :=
              ⟨newId, t, d, b.status.getD Status.todo,
                b.priority.getD Priority.medium, ids, user.id, b.dueDate, now⟩
            ⟨HStatus.created201, db ++ [task],
              ids.map (fun uid => ⟨uid, EvName.taskAssigned⟩) ++
                [⟨user.id, EvName.taskCreated⟩]⟩
        | _, _ => ⟨HStatus.serverError500, db, []⟩

/-- Replace the saved document in the store (`task.save()` writes the
mutated document back under its id). -/
def saveTask (db : List Task) (task : Task) : List Task :=
  db.map (fun t => if t.id == task.id then task else t)

/-- PUT /api/tasks/:id (`routes/tasks.ts` lines 414-502), behind `protect`.
Order of the handler: 400 on malformed id, 404 when absent, the `canWrite`
gate, in-memory mutation of the provided scalar fields, then — only when
`assignedTo` is among the fields — the existence check over the new ids
(400 before any save, leaving the store untouched and emitting nothing).
After `save`, `taskUpdated` goes to every pre-update assignee, `taskAssigned`
to every id newly present in the post-update set, and `taskUpdated` to the
requester (whatever the role). -/
def updateTask (users : List UserRec) (db : List Task) (user : UserRec)
    (taskId : String) (b : UpdateBody) : MutResult :=
  if !isValidObjectId taskId then
    ⟨HStatus.badRequest400, db, []⟩
  else
    match db.find? (fun t => t.id == taskId) with
    | none => ⟨HStatus.notFound404, db, []⟩
    | some task =>
      if !canWrite user task b then
        ⟨HStatus.forbidden403, db, []⟩
      else
        let originalAssignedTo := task.assignedTo
        let task1 : Task :=
          { task with
            title := b.title.getD task.title
            description := b.description.getD task.description
            status := b.status.getD task.status
            priority := b.priority.getD task.priority
            dueDate := match b.dueDate with
              | some d => some d
              | none => task.dueDate }
        match b.assignedTo with
        | some ids =>
          if validUsersCount users ids != ids.length then
            ⟨HStatus.badRequest400, db, []⟩
          else
            let task2 : Task := { task1 with assignedTo := ids }
            ⟨HStatus.ok200, saveTask db task2,
              originalAssignedTo.map (fun uid => ⟨uid, EvName.taskUpdated⟩) ++
                (ids.filter (fun uid => !originalAssignedTo.contains uid)).map
                  (fun uid => ⟨uid, EvName.taskAssigned⟩) ++
                [⟨user.id, EvName.taskUpdated⟩]⟩
        | none =>
          ⟨HStatus.ok200, saveTask db task1,
            originalAssignedTo.map (fun uid => ⟨uid, EvName.taskUpdated⟩) ++
              [⟨user.id, EvName.taskUpdated⟩]⟩

/-- DELETE /api/tasks/:id (`routes/tasks.ts` lines 505-533), behind
`protect` and `authorize(admin)` — the assignee/creator rules never run for
a non-admin, the middleware answers 403 first. A malformed id makes
`findById` throw a cast error, caught as 500. On success the record is
removed and `taskDeleted` goes to every pre-deletion assignee and to the
requester. -/
def deleteTask (db : List Task) (user : UserRec) (taskId : String) : MutResult :=
  if !(authorize Role.admin user) then
    ⟨HStatus.forbidden403, db, []⟩
  else if !isValidObjectId taskId then
    ⟨HStatus.serverError500, db, []⟩
  else
    match db.find? (fun t => t.id == taskId) with
    | none => ⟨HStatus.notFound404, db, []⟩
    | some task =>
      ⟨HStatus.ok200, db.filter (fun t => t.id != taskId),
        task.assignedTo.map (fun uid => ⟨uid, EvName.taskDeleted⟩) ++
          [⟨user.id, EvName.taskDeleted⟩]⟩

/-- POST /api/auth/register request body; `role` is `some` when the key is
present. -/
structure RegisterBody where
  name : String
  email : String
  password : String
  role : Option Role
deriving DecidableEq, Repr

/-- Claims carried by the signed JWT: `jwt.sign(id, role)`. -/
structure TokenPayload where
  id : UserId
  role : Role
deriving DecidableEq, Repr

/-- Result of POST /api/auth/register: status, user collection afterwards,
and the token payload when one is issued. -/
structure RegisterResult where
  status : HStatus
  users : List UserRec
  token : Option TokenPayload
deriving DecidableEq, Repr

/-- POST /api/auth/register (`routes/auth.ts` lines 47-87): 400 when a user
with the email already exists; otherwise a user is created with
`role = 'user'` only as the destructuring default for an absent key (the
schema default `isActive: true` applies), and a 201 response returns a token
signed over the new id and that role. -/
def register (users : List UserRec) (b : RegisterBody) (newId : UserId) :
    RegisterResult :=
  if users.any (fun u => u.email == b.email) then
    ⟨HStatus.badRequest400, users, none⟩
  else
    let role := b.role.getD Role.user
    let u : UserRec := ⟨newId, b.name, b.email, role, true⟩
    ⟨HStatus.created201, users ++ [u], some ⟨newId, role⟩⟩

/-! Concrete fixtures used by counterexamples and witnesses. -/

/-- A well-formed ObjectId (24 hex characters). -/
def oidA : String := "aaaaaaaaaaaaaaaaaaaaaaaa"

/-- Update body whose only key is `status`. -/
def statusOnlyBody (s : Status) : UpdateBody :=
  ⟨none, none, some s, none, none, none⟩

/-- Update body carrying exactly `status` and `priority`. -/
def statusPriorityBody (s : Status) (p : Priority) : UpdateBody :=
  ⟨none, none, some s, some p, none, none⟩

/-- Task created by user u2 and assigned to user u1. -/
def wTask1 : Task :=
  ⟨oidA, "T", "D", Status.todo, Priority.medium, ["u1"], "u2", none, 0⟩

/-- Non-admin assignee of `wTask1`. -/
def wUser1 : UserRec := ⟨"u1", "A", "a@x", Role.user, true⟩

/-- Non-admin creator of `wTask1`. -/
def wCreator2 : UserRec := ⟨"u2", "B", "b@x", Role.user, true⟩

/-- An administrator. -/
def wAdmin : UserRec := ⟨"adm", "Adm", "adm@x", Role.admin, true⟩

def userA : UserRec := ⟨"a", "A", "a@m", Role.user, true⟩
def userB : UserRec := ⟨"b", "B", "b@m", Role.user, true⟩
def userC : UserRec := ⟨"c", "C", "c@m", Role.user, true⟩
def userD : UserRec := ⟨"d", "D", "d@m", Role.user, true⟩

/-- Admin requester for the update-notification scenario. -/
def userR : UserRec := ⟨"r", "R", "r@m", Role.admin, true⟩

/-- User collection for the update-notification scenario. -/
def users3 : List UserRec := [userA, userB, userC, userD, userR]

/-- Task created by d, assigned to a and b. -/
def task3 : Task :=
  ⟨oidA, "T", "D", Status.todo, Priority.medium, ["a", "b"], "d", none, 0⟩

/-- Update body moving the assignee set from a,b to b,c. -/
def body3 : UpdateBody := ⟨none, none, none, none, some ["b", "c"], none⟩

/-- Non-admin user u, creator of `task5` but not assigned to it. -/
def user5 : UserRec := ⟨"u", "U", "u@x", Role.user, true⟩

/-- Task created by u, assigned to v only. -/
def task5 : Task :=
  ⟨oidA, "T", "D", Status.todo, Priority.medium, ["v"], "u", none, 0⟩

/-- An existing but deactivated user. -/
def inactiveW : UserRec := ⟨"w", "W", "w@x", Role.user, false⟩

/-- Create body assigning the task to the inactive user w. -/
def body6 : CreateBody := ⟨some "T", some "D", none, some ["w"], none, none⟩

/-- Update body carrying a title change together with an unresolvable
assignee id. -/
def body9 : UpdateBody := ⟨some "X", none, none, none, some ["ghost"], none⟩

/-- Registration body requesting the admin role. -/
def regBody : RegisterBody := ⟨"N", "n@x", "pw", some Role.admin⟩

/-- C1: for every task T and non-admin user U distinct from the creator and
currently assigned, an update whose field set is exactly the status is
permitted (canWrite true, handler answers 200), while an update carrying
exactly status and priority is rejected (canWrite false, handler answers
403). -/
theorem assignee_status_only_write (users : List UserRec) (db : List Task)
    (user : UserRec) (task : Task) (s : Status) (p : Priority)
    (hrole : user.role ≠ Role.admin)
    (hnc : user.id ≠ task.assignedBy)
    (hassn : user.id ∈ task.assignedTo)
    (hvalid : isValidObjectId task.id = true)
    (hfound : db.find? (fun t => t.id == task.id) = some task) :
    canWrite user task (statusOnlyBody s) = true ∧
    canWrite user task (statusPriorityBody s p) = false ∧
    (updateTask users db user task.id (statusOnlyBody s)).status = HStatus.ok200 ∧
    (updateTask users db user task.id (statusPriorityBody s p)).status =
      HStatus.forbidden403 := by
  have hr : (user.role != Role.admin) = true := by
    simpa using hrole
  have hc : (task.assignedBy != user.id) = true := by
    simpa using (Ne.symm hnc)
  have ha : task.assignedTo.contains user.id = true := by
    simpa [List.contains] using hassn
  have h1 : canWrite user task (statusOnlyBody s) = true := by
    simp [canWrite, statusOnlyBody, bodyKeys, hr, hc, hassn]
  have h2 : canWrite user task (statusPriorityBody s p) = false := by
    simp [canWrite, statusPriorityBody, bodyKeys, hr, hc]
  have h1a : canWrite user task ⟨none, none, some s, none, none, none⟩ = true := h1
  have h2a : canWrite user task ⟨none, none, some s, some p, none, none⟩ = false := h2
  refine ⟨h1, h2, ?_, ?_⟩
  · simp [updateTask, hvalid, hfound, statusOnlyBody, h1a]
  · simp [updateTask, hvalid, hfound, statusPriorityBody, h2a]

/-- C1 witness: the non-admin assignee u1 of `wTask1` may set the status
alone but not status and priority together. -/
theorem assignee_status_only_write_witness :
    canWrite wUser1 wTask1 (statusOnlyBody Status.done) = true ∧
    canWrite wUser1 wTask1 (statusPriorityBody Status.done Priority.high) = false ∧
    (updateTask [] [wTask1] wUser1 wTask1.id (statusOnlyBody Status.done)).status =
      HStatus.ok200 ∧
    (updateTask [] [wTask1] wUser1 wTask1.id
      (statusPriorityBody Status.done Priority.high)).status = HStatus.forbidden403 :=
  assignee_status_only_write [] [wTask1] wUser1 wTask1 Status.done Priority.high
    (by decide) (by decide) (by decide) (by decide) (by decide)

/-- C2 counterexample: the delete route sits behind authorize(admin), so the
non-admin creator u2 of `wTask1` is rejected with 403 and the task stays in
the store — the claim that a non-admin creator can delete fails. -/
theorem delete_by_nonadmin_creator_rejected :
    wCreator2.role ≠ Role.admin ∧
    wTask1.assignedBy = wCreator2.id ∧
    deleteTask [wTask1] wCreator2 wTask1.id =
      ⟨HStatus.forbidden403, [wTask1], []⟩ := by decide

/-- C2 amended: deletion is admin-only at the route; every non-admin
request — the creator included — fails with 403 leaving the store
untouched, and an admin request succeeds and removes the task. -/
theorem delete_admin_only (db : List Task) (user : UserRec) (task : Task)
    (hvalid : isValidObjectId task.id = true)
    (hfound : db.find? (fun t => t.id == task.id) = some task) :
    (user.role ≠ Role.admin →
      deleteTask db user task.id = ⟨HStatus.forbidden403, db, []⟩) ∧
    (user.role = Role.admin →
      (deleteTask db user task.id).status = HStatus.ok200 ∧
      (deleteTask db user task.id).db = db.filter (fun t => t.id != task.id) ∧
      task ∉ (deleteTask db user task.id).db) := by
  constructor
  · intro hna
    have h : authorize Role.admin user = false := by
      simp [authorize, hna]
    simp [deleteTask, h]
  · intro hadm
    have h : authorize Role.admin user = true := by
      simp [authorize, hadm]
    refine ⟨by simp [deleteTask, h, hvalid, hfound], by simp [deleteTask, h, hvalid, hfound], ?_⟩
    simp [deleteTask, h, hvalid, hfound, List.mem_filter]

/-- C2 witness: an admin delete of `wTask1` succeeds and removes it, while
the non-admin creator u2 gets 403 and the store is unchanged. -/
theorem delete_admin_only_witness :
    ((deleteTask [wTask1] wAdmin wTask1.id).status = HStatus.ok200 ∧
      (deleteTask [wTask1] wAdmin wTask1.id).db =
        List.filter (fun t => t.id != wTask1.id) [wTask1] ∧
      wTask1 ∉ (deleteTask [wTask1] wAdmin wTask1.id).db) ∧
    deleteTask [wTask1] wCreator2 wTask1.id = ⟨HStatus.forbidden403, [wTask1], []⟩ :=
  ⟨(delete_admin_only [wTask1] wAdmin wTask1 (by decide) (by decide)).2 rfl,
   (delete_admin_only [wTask1] wCreator2 wTask1 (by decide) (by decide)).1 (by decide)⟩

/-- C3 counterexample: admin r updates the assignee set of `task3` from a,b
to b,c; the update succeeds but the creator d — outside the pre-update set
and distinct from the requester — receives no taskUpdated event, refuting
the claim that the creator is always notified. -/
theorem update_creator_not_notified :
    userR.role = Role.admin ∧
    task3.assignedBy = userD.id ∧
    userD.id ∉ task3.assignedTo ∧
    userD.id ≠ userR.id ∧
    (updateTask users3 [task3] userR task3.id body3).status = HStatus.ok200 ∧
    Emission.mk userD.id EvName.taskUpdated ∉
      (updateTask users3 [task3] userR task3.id body3).events := by decide

/-- C3 amended: on a successful update that carries assignedTo, taskUpdated
goes exactly to the pre-update assignees and to the requester (whatever the
requester role — the creator is not separately notified), and taskAssigned
goes exactly to the ids newly present in the post-update set. -/
theorem update_event_targets (users : List UserRec) (db : List Task)
    (user : UserRec) (task : Task) (b : UpdateBody) (ids : List UserId)
    (hvalid : isValidObjectId task.id = true)
    (hfound : db.find? (fun t => t.id == task.id) = some task)
    (hcw : canWrite user task b = true)
    (hids : b.assignedTo = some ids)
    (hcount : validUsersCount users ids = ids.length) :
    (∀ uid, Emission.mk uid EvName.taskUpdated ∈
        (updateTask users db user task.id b).events ↔
      (uid ∈ task.assignedTo ∨ uid = user.id)) ∧
    (∀ uid, Emission.mk uid EvName.taskAssigned ∈
        (updateTask users db user task.id b).events ↔
      (uid ∈ ids ∧ uid ∉ task.assignedTo)) := by
  have hne : (validUsersCount users ids != ids.length) = false := by
    simp [hcount]
  constructor
  · intro uid
    simp [updateTask, hvalid, hfound, hcw, hids, hne, List.mem_append,
      List.mem_map, List.mem_filter, List.contains]
  · intro uid
    simp [updateTask, hvalid, hfound, hcw, hids, hne, List.mem_append,
      List.mem_map, List.mem_filter, List.contains]

/-- C3 witness: in the a,b to b,c scenario, a (dropped) and b (retained)
receive taskUpdated, c receives taskAssigned, and b never receives
taskAssigned. -/
theorem update_event_targets_witness :
    Emission.mk userA.id EvName.taskUpdated ∈
      (updateTask users3 [task3] userR task3.id body3).events ∧
    Emission.mk userB.id EvName.taskUpdated ∈
      (updateTask users3 [task3] userR task3.id body3).events ∧
    Emission.mk userC.id EvName.taskAssigned ∈
      (updateTask users3 [task3] userR task3.id body3).events ∧
    Emission.mk userB.id EvName.taskAssigned ∉
      (updateTask users3 [task3] userR task3.id body3).events := by
  have h := update_event_targets users3 [task3] userR task3 body3 ["b", "c"]
    (by decide) (by decide) (by decide) rfl (by decide)
  refine ⟨(h.1 userA.id).mpr (Or.inl (by decide)),
    (h.1 userB.id).mpr (Or.inl (by decide)),
    (h.2 userC.id).mpr (by decide), fun hmem => ?_⟩
  have hb := (h.2 userB.id).mp hmem
  exact hb.2 (by decide)

/-- C4: a found task is returned by GET /api/tasks/:id exactly when the
requester is admin, an assignee, or the creator, and the handler answers
403 when that disjunction fails. -/
theorem getTask_read_scope (db : List Task) (user : UserRec) (task : Task)
    (hvalid : isValidObjectId task.id = true)
    (hfound : db.find? (fun t => t.id == task.id) = some task) :
    (getTask db user task.id = GetResult.ok task ↔
      (user.role = Role.admin ∨ user.id ∈ task.assignedTo ∨
        user.id = task.assignedBy)) ∧
    (¬(user.role = Role.admin ∨ user.id ∈ task.assignedTo ∨
        user.id = task.assignedBy) →
      getTask db user task.id = GetResult.forbidden) := by
  have hcomm : (user.id = task.assignedBy) ↔ (task.assignedBy = user.id) := eq_comm
  by_cases h1 : user.role = Role.admin <;>
    by_cases h2 : user.id ∈ task.assignedTo <;>
      by_cases h3 : task.assignedBy = user.id <;>
        simp [getTask, hvalid, hfound, h1, h2, h3, List.contains, hcomm]

/-- C4 witness: the admin reads `wTask1`, and the unrelated non-admin v is
refused. -/
theorem getTask_read_scope_witness :
    getTask [wTask1] wAdmin wTask1.id = GetResult.ok wTask1 ∧
    getTask [wTask1] user5 wTask1.id = GetResult.forbidden :=
  ⟨(getTask_read_scope [wTask1] wAdmin wTask1 (by decide) (by decide)).1.mpr
      (Or.inl rfl),
   (getTask_read_scope [wTask1] user5 wTask1 (by decide) (by decide)).2
      (by decide)⟩

/-- C5 counterexample: the task list query for a non-admin filters on
assignedTo membership only, so the non-admin u, creator of `task5` but not
assigned to it, does not see it — refuting the created-OR-assigned scope. -/
theorem listFor_omits_created_tasks :
    user5.role ≠ Role.admin ∧
    task5.assignedBy = user5.id ∧
    task5 ∈ [task5] ∧
    task5 ∉ listFor [task5] user5 := by decide

/-- C5 amended: an admin lists every task and a non-admin lists exactly the
tasks whose assignedTo set contains the requester (tasks merely created by
the requester are omitted); the result is ordered most recently created
first. -/
theorem listFor_scope_and_order (db : List Task) (user : UserRec) :
    (∀ t, t ∈ listFor db user ↔
      (t ∈ db ∧ (user.role = Role.admin ∨ user.id ∈ t.assignedTo))) ∧
    List.Sorted createdGe (listFor db user) := by
  by_cases h : user.role = Role.admin
  · refine ⟨fun t => ?_, ?_⟩
    · simp [listFor, h, List.mem_insertionSort]
    · simpa [listFor, h] using List.sorted_insertionSort createdGe db
  · refine ⟨fun t => ?_, ?_⟩
    · simp [listFor, h, List.mem_insertionSort, List.mem_filter, List.contains]
    · simpa [listFor, h] using
        List.sorted_insertionSort createdGe
          (db.filter (fun t => t.assignedTo.contains user.id))

/-- C5 witness: the admin sees `task5` and the listing is sorted. -/
theorem listFor_scope_and_order_witness :
    task5 ∈ listFor [task5] wAdmin ∧
    List.Sorted createdGe (listFor [task5] wAdmin) :=
  ⟨((listFor_scope_and_order [task5] wAdmin).1 task5).mpr ⟨by decide, Or.inl rfl⟩,
   (listFor_scope_and_order [task5] wAdmin).2⟩

/-- C6 counterexample: the create route validates only that the assignee
ids exist (no isActive filter), so a create targeting the deactivated user
w succeeds with 201 and the task is persisted — refuting the claimed
ValidationError. -/
theorem create_inactive_assignee_persisted :
    inactiveW.isActive = false ∧
    (createTask [inactiveW] [] wAdmin body6 oidA 0).status = HStatus.created201 ∧
    (createTask [inactiveW] [] wAdmin body6 oidA 0).db =
      [⟨oidA, "T", "D", Status.todo, Priority.medium, ["w"], "adm", none, 0⟩] := by
  decide

/-- C6 amended: create rejects with 400 exactly when some assignedTo id
fails to resolve to an existing user, writing nothing; when every id
resolves — active or not — the task is persisted with 201. -/
theorem create_checks_existence_only (users : List UserRec) (db : List Task)
    (user : UserRec) (b : CreateBody) (ids : List UserId) (t d : String)
    (newId : String) (now : Nat)
    (hadmin : user.role = Role.admin)
    (hids : b.assignedTo = some ids) (hne : ids ≠ [])
    (ht : b.title = some t) (hd : b.description = some d)
    (ht0 : t ≠ "") (hd0 : d ≠ "") :
    (validUsersCount users ids = ids.length →
      (createTask users db user b newId now).status = HStatus.created201 ∧
      (createTask users db user b newId now).db =
        db ++ [⟨newId, t, d, b.status.getD Status.todo,
          b.priority.getD Priority.medium, ids, user.id, b.dueDate, now⟩]) ∧
    (validUsersCount users ids ≠ ids.length →
      createTask users db user b newId now = ⟨HStatus.badRequest400, db, []⟩) := by
  have hz : authorize Role.admin user = true := by
    simp [authorize, hadmin]
  have hemp : ids.isEmpty = false := by
    simpa [List.isEmpty_iff] using hne
  constructor
  · intro hcount
    constructor <;>
      simp [createTask, hz, hids, hemp, hcount, ht, hd, ht0, hd0]
  · intro hcount
    simp [createTask, hz, hids, hemp, hcount]

/-- C6 witness: with the single existing (inactive) user w resolving every
id, the create succeeds and persists; with no users at all the same body is
rejected with 400 and nothing is written. -/
theorem create_checks_existence_only_witness :
    ((createTask [inactiveW] [] wAdmin body6 oidA 0).status = HStatus.created201 ∧
      (createTask [inactiveW] [] wAdmin body6 oidA 0).db =
        [] ++ [⟨oidA, "T", "D", body6.status.getD Status.todo,
          body6.priority.getD Priority.medium, ["w"], wAdmin.id, body6.dueDate, 0⟩]) ∧
    createTask [] [] wAdmin body6 oidA 0 = ⟨HStatus.badRequest400, [], []⟩ :=
  ⟨(create_checks_existence_only [inactiveW] [] wAdmin body6 ["w"] "T" "D" oidA 0
      rfl rfl (by decide) rfl rfl (by decide) (by decide)).1 (by decide),
   (create_checks_existence_only [] [] wAdmin body6 ["w"] "T" "D" oidA 0
      rfl rfl (by decide) rfl rfl (by decide) (by decide)).2 (by decide)⟩

/-- C7: a valid create followed by a get of the fresh id (by the creator,
with no intervening mutation) returns a task whose title, description,
assignedTo and dueDate equal the create inputs, with status defaulting to
todo and priority to medium when omitted. -/
theorem create_get_roundtrip (users : List UserRec) (db : List Task)
    (creator : UserRec) (b : CreateBody) (ids : List UserId) (t d : String)
    (newId : String) (now : Nat)
    (hadmin : creator.role = Role.admin)
    (hids : b.assignedTo = some ids) (hne : ids ≠ [])
    (hcount : validUsersCount users ids = ids.length)
    (ht : b.title = some t) (hd : b.description = some d)
    (ht0 : t ≠ "") (hd0 : d ≠ "")
    (hvalid : isValidObjectId newId = true)
    (hfresh : ∀ tk ∈ db, tk.id ≠ newId) :
    getTask (createTask users db creator b newId now).db creator newId =
      GetResult.ok ⟨newId, t, d, b.status.getD Status.todo,
        b.priority.getD Priority.medium, ids, creator.id, b.dueDate, now⟩ := by
  have hdb : (createTask users db creator b newId now).db =
      db ++ [⟨newId, t, d, b.status.getD Status.todo,
        b.priority.getD Priority.medium, ids, creator.id, b.dueDate, now⟩] :=
    ((create_checks_existence_only users db creator b ids t d newId now
      hadmin hids hne ht hd ht0 hd0).1 hcount).2
  have hnone : db.find? (fun tk => tk.id == newId) = none := by
    rw [List.find?_eq_none]
    intro tk htk
    simpa using hfresh tk htk
  have hfind : ((createTask users db creator b newId now).db).find?
      (fun tk => tk.id == newId) =
      some ⟨newId, t, d, b.status.getD Status.todo,
        b.priority.getD Priority.medium, ids, creator.id, b.dueDate, now⟩ := by
    rw [hdb, List.find?_append, hnone]
    simp
  simp [getTask, hvalid, hfind, hadmin]

/-- C7 witness: the admin creates a task titled T, descripted D, assigned
to w with no explicit status or priority, and reads it back with status
todo and priority medium. -/
theorem create_get_roundtrip_witness :
    getTask (createTask [inactiveW] [] wAdmin body6 oidA 0).db wAdmin oidA =
      GetResult.ok ⟨oidA, "T", "D", body6.status.getD Status.todo,
        body6.priority.getD Priority.medium, ["w"], wAdmin.id, body6.dueDate, 0⟩ :=
  create_get_roundtrip [inactiveW] [] wAdmin body6 ["w"] "T" "D" oidA 0
    rfl rfl (by decide) (by decide) rfl rfl (by decide) (by decide) (by decide)
    (by decide)

/-- C8 counterexample: for the malformed id xyz the get handler answers 400
Invalid task ID format, not the 404 NotFound the claim states. -/
theorem get_malformed_id_bad_request :
    isValidObjectId "xyz" = false ∧
    getTask [] user5 "xyz" = GetResult.badRequest ∧
    getTask [] user5 "xyz" ≠ GetResult.notFound := by decide

/-- C8 amended: a malformed id fails with 400 (ValidationError); NotFound
(404) is reserved for a well-formed id that resolves to no task. -/
theorem get_malformed_400_missing_404 (db : List Task) (user : UserRec)
    (taskId : String) :
    (isValidObjectId taskId = false → getTask db user taskId = GetResult.badRequest) ∧
    (isValidObjectId taskId = true →
      db.find? (fun t => t.id == taskId) = none →
      getTask db user taskId = GetResult.notFound) := by
  constructor
  · intro h
    simp [getTask, h]
  · intro h hn
    simp [getTask, h, hn]

/-- C8 witness: xyz is malformed and gets 400; the well-formed absent id
gets 404. -/
theorem get_malformed_400_missing_404_witness :
    getTask [] user5 "xyz" = GetResult.badRequest ∧
    getTask [] user5 oidA = GetResult.notFound :=
  ⟨(get_malformed_400_missing_404 [] user5 "xyz").1 (by decide),
   (get_malformed_400_missing_404 [] user5 oidA).2 (by decide) (by decide)⟩

/-- C9: when an update fails with 400 because some id in the requested
assignedTo does not resolve, the handler returns before `save`, so the
stored task keeps every field — including scalar fields the request also
carried — and no event is emitted. -/
theorem update_invalid_assignee_untouched (users : List UserRec)
    (db : List Task) (user : UserRec) (task : Task) (b : UpdateBody)
    (ids : List UserId)
    (hvalid : isValidObjectId task.id = true)
    (hfound : db.find? (fun t => t.id == task.id) = some task)
    (hcw : canWrite user task b = true)
    (hids : b.assignedTo = some ids)
    (hcount : validUsersCount users ids ≠ ids.length) :
    updateTask users db user task.id b = ⟨HStatus.badRequest400, db, []⟩ := by
  simp [updateTask, hvalid, hfound, hcw, hids, hcount]

/-- C9 witness: the admin sends a title change together with the
unresolvable assignee ghost; the store and the event list are untouched
and the status is 400. -/
theorem update_invalid_assignee_untouched_witness :
    updateTask [] [wTask1] wAdmin wTask1.id body9 =
      ⟨HStatus.badRequest400, [wTask1], []⟩ :=
  update_invalid_assignee_untouched [] [wTask1] wAdmin wTask1 body9 ["ghost"]
    (by decide) (by decide) (by decide) rfl (by decide)

/-- C10: registration reads the role from the request body, falling back to
user only for an absent key; with a fresh email the created user and the
signed token both carry the requested role, status 201. -/
theorem register_role_from_body (users : List UserRec) (b : RegisterBody)
    (newId : UserId)
    (hfresh : users.any (fun u => u.email == b.email) = false) :
    (register users b newId).status = HStatus.created201 ∧
    (register users b newId).users =
      users ++ [⟨newId, b.name, b.email, b.role.getD Role.user, true⟩] ∧
    (register users b newId).token = some ⟨newId, b.role.getD Role.user⟩ := by
  simp [register, hfresh]

/-- C10 witness: registering with a fresh email and role admin yields a 201
response, an admin user record, and a token carrying the admin role. -/
theorem register_role_from_body_witness :
    (register [] regBody "u9").status = HStatus.created201 ∧
    (register [] regBody "u9").users =
      [] ++ [⟨"u9", regBody.name, regBody.email, regBody.role.getD Role.user, true⟩] ∧
    (register [] regBody "u9").token = some ⟨"u9", regBody.role.getD Role.user⟩ :=
  register_role_from_body [] regBody "u9" (by decide)

end Kanban
